import Mathlib

/-!
Verification of `supabase/functions/vector-search/index.ts` from
`headless-vector-search`: a shallow embedding of the request handler
(request gate, moderation filter, retrieval stage, context assembler,
answer generator, error boundary) and proofs about it.

External collaborators (moderation service, embedding service, vector
store, completion endpoint, tokenizer) are modelled as oracle values in
an `Env` record: the handler is a pure function of the request and of
the responses those collaborators would give.
-/

namespace VectorSearch

/-- JavaScript `String.prototype.trim` at the character-list level:
drop whitespace from both ends. -/
def trimList (l : List Char) : List Char :=
  ((l.dropWhile Char.isWhitespace).reverse.dropWhile Char.isWhitespace).reverse

/-- JavaScript `"s".replaceAll("\n", " ")` at the character-list level:
the pattern is a single character, so the replacement is a pointwise map. -/
def replaceNl (l : List Char) : List Char :=
  l.map fun c => if c = '\n' then ' ' else c

/-- The source's `query.trim()`, modelled on `String` via `trimList`. -/
def strTrim (s : String) : String :=
  ⟨trimList s.data⟩

/-- Line 52 of index.ts:
`const sanitizedQuery = query.trim().replaceAll("\n", " ")`. -/
def sanitize (q : String) : String :=
  ⟨replaceNl (trimList q.data)⟩

/-- One retrieved document section, as returned by the
`match_page_sections` RPC.  `content := none` models a missing or null
`content` field (the source reads `pageSection.content as string || ""`). -/
structure PageSection where
  content : Option String
deriving DecidableEq, Repr

/-- The source's `pageSection.content as string || ""`: a falsy content field
collapses to the empty string. -/
def sectionContent (s : PageSection) : String :=
  s.content.getD ""

/-- The token count the loop attributes to a section:
`tokenizer.encode(currentDocument).text.length`, with the tokenizer
modelled as an arbitrary deterministic token-counting function. -/
def sectionTokens (tok : String → Nat) (s : PageSection) : Nat :=
  tok (sectionContent s)

/-- The text a section contributes to the context when it is included:
the template `${currentDocument.trim()}\n---\n`. -/
def sectionText (s : PageSection) : String :=
  strTrim (sectionContent s) ++ "\n---\n"

/-- The context-assembly loop of index.ts lines 93-103, carrying the
running `tokenCount` and `contextText`.  For each section the token
count is added first; if the running total has then reached 1500 the
loop breaks and the section is not appended; otherwise the section's
trimmed text plus separator is appended and the loop continues. -/
def assembleContextAux (tok : String → Nat) (tokenCount : Nat)
    (contextText : String) : List PageSection → Nat × String
  | [] => (tokenCount, contextText)
  | s :: rest =>
    let currentDocumentTokenCount := sectionTokens tok s
    let tokenCount' := tokenCount + currentDocumentTokenCount
    if 1500 ≤ tokenCount' then (tokenCount', contextText)
    else assembleContextAux tok tokenCount' (contextText ++ sectionText s) rest

/-- The assembled `contextText` after the loop, starting from
`tokenCount = 0` and `contextText = ""`. -/
def assembleContext (tok : String → Nat) (sections : List PageSection) : String :=
  (assembleContextAux tok 0 "" sections).2

/-- How many leading sections the loop keeps: a section is kept exactly
when the running total including it stays strictly below 1500. -/
def keepCount (tok : String → Nat) (acc : Nat) : List PageSection → Nat
  | [] => 0
  | s :: rest =>
    let acc' := acc + sectionTokens tok s
    if acc' < 1500 then keepCount tok acc' rest + 1 else 0

/-- The CORS headers attached to every non-streaming response
(index.ts lines 11-14). -/
def corsHeaders : List (String × String) :=
  [("Access-Control-Allow-Origin", "*"),
   ("Access-Control-Allow-Headers", "authorization, x-client-info, apikey, content-type")]

/-- The headers of the streaming success response: the CORS headers plus
the event-stream content type (index.ts lines 16-19). -/
def corsStreamingHeaders : List (String × String) :=
  corsHeaders ++ [("Content-Type", "text/event-stream")]

/-- The structured data a `UserError` may carry; in this handler only
the moderation rejection carries one: `{ flagged: true, categories }`. -/
structure UserErrorData where
  flagged : Bool
  categories : List (String × Bool)
deriving DecidableEq, Repr

/-- The body of a response: plain text (the OPTIONS branch), a JSON
object `{error, data?}` (the error boundary), or the forwarded
completion byte stream. -/
inductive ResponseBody where
  | text (s : String)
  | json (error : String) (data : Option UserErrorData)
  | stream (s : String)
deriving DecidableEq, Repr

/-- An outgoing HTTP response: status, headers and body. -/
structure HttpResponse where
  status : Nat
  headers : List (String × String)
  body : ResponseBody
deriving DecidableEq, Repr

/-- An incoming request as the handler sees it: its method and the
value of the `query` search parameter (`none` when absent). -/
structure HttpRequest where
  method : String
  queryParam : Option String
deriving DecidableEq, Repr

/-- Which external calls the handler performed during one request. -/
structure Calls where
  moderation : Bool
  embedding : Bool
  rpc : Bool
  completion : Bool
deriving DecidableEq, Repr

/-- No external call performed. -/
def noCalls : Calls :=
  { moderation := false, embedding := false, rpc := false, completion := false }

/-- The chat-completion request body's two messages (index.ts lines
127-136): the system message carries the constructed prompt, the user
message carries the raw query. -/
structure CompletionRequest where
  systemContent : String
  userContent : String
deriving DecidableEq, Repr

/-- The first moderation result entry, `{flagged, categories}`. -/
structure ModerationResults where
  flagged : Bool
  categories : List (String × Bool)
deriving DecidableEq, Repr

/-- Oracle values for the external collaborators of one request: the
moderation verdict, the embedding response status, the vector-store RPC
outcome, the token-counting function, and the completion endpoint's
outcome.  The handler is a pure function of the request and of these. -/
structure Env where
  moderation : ModerationResults
  embeddingStatus : Nat
  embeddingRaw : String
  matchError : Option String
  pageSections : List PageSection
  tok : String → Nat
  completionOk : Bool
  completionBody : String

/-- The fixed system instruction of the prompt, collapsed onto one line
by the `oneLine` template tag (index.ts lines 107-113). -/
def promptInstruction : String :=
  "You are a very enthusiastic support representative who loves to help people! Given the following sections from the product documentation, answer the question using only that information, outputted in markdown format. If you are unsure and the answer is not explicitly written in the documentation, say \"Sorry, I don\x27t know how to help with that.\""

/-- The query wrapped in its triple-quote delimiters inside the prompt. -/
def wrapQuoted (q : String) : String :=
  "\"\"\"\n" ++ q ++ "\n\"\"\""

/-- The prompt template of index.ts lines 106-124, after the `codeBlock`
tag has stripped the template's own indentation: the one-line
instruction, the context block, the sanitized query wrapped in
triple-quote delimiters, and the output-format instruction. -/
def buildPrompt (contextText sanitizedQuery : String) : String :=
  promptInstruction ++ "\n\nContext sections:\n" ++ contextText ++
    "\n\nQuestion: " ++ wrapQuoted sanitizedQuery ++
    "\n\nAnswer as markdown (including related code snippets if available):"

/-- The response the error boundary produces for a `UserError`:
HTTP 400 with JSON body `{error: message, data}` and CORS headers
(index.ts lines 158-168).  Modelled from the spec: the `UserError`
class of `_utils/errors.ts` is not under src/; per the spec it carries
its message and an optional structured-data payload, surfaced here. -/
def userErrorResponse (message : String) (data : Option UserErrorData) : HttpResponse :=
  { status := 400, headers := corsHeaders, body := .json message data }

/-- The response the error boundary produces for an `ApplicationError`
or any unexpected error: HTTP 500 with the fixed generic JSON body and
CORS headers (index.ts lines 176-186).  Modelled from the spec: the
`ApplicationError` class of `_utils/errors.ts` is not under src/; per
the spec its diagnostic data is logged server-side only and never put
into the response. -/
def genericErrorResponse : HttpResponse :=
  { status := 500, headers := corsHeaders,
    body := .json "There was an error processing your request" none }

/-- The complete outcome of one request: the HTTP response, which
external calls were made, and the completion request body when the
pipeline reached the answer-generation stage. -/
structure HandlerOutcome where
  response : HttpResponse
  calls : Calls
  completionRequest : Option CompletionRequest
deriving DecidableEq, Repr

/-- The `Deno.serve` handler of index.ts lines 38-188 with its
try/catch folded in: each `throw` site is replaced by the response the
single catch point maps that error to.  Stages in source order: OPTIONS
branch, query extraction (`if (!query)` is JavaScript falsiness, so the
empty string fails like an absent parameter), moderation gate,
embedding status check, `match_page_sections` RPC error check, context
assembly, prompt construction, completion fetch, streaming response. -/
def handle (env : Env) (req : HttpRequest) : HandlerOutcome :=
  if req.method = "OPTIONS" then
    { response := { status := 200, headers := corsHeaders, body := .text "ok" },
      calls := noCalls, completionRequest := none }
  else
    match req.queryParam with
    | none =>
      { response := userErrorResponse "Missing query in request data" none,
        calls := noCalls, completionRequest := none }
    | some query =>
      if query = "" then
        { response := userErrorResponse "Missing query in request data" none,
          calls := noCalls, completionRequest := none }
      else
        let sanitizedQuery := sanitize query
        if env.moderation.flagged then
          { response := userErrorResponse "Flagged content"
              (some { flagged := true, categories := env.moderation.categories }),
            calls := { noCalls with moderation := true }, completionRequest := none }
        else if env.embeddingStatus ≠ 200 then
          { response := genericErrorResponse,
            calls := { noCalls with moderation := true, embedding := true },
            completionRequest := none }
        else
          match env.matchError with
          | some _ =>
            { response := genericErrorResponse,
              calls := { noCalls with moderation := true, embedding := true, rpc := true },
              completionRequest := none }
          | none =>
            let contextText := assembleContext env.tok env.pageSections
            let prompt := buildPrompt contextText sanitizedQuery
            let completionReq : CompletionRequest :=
              { systemContent := prompt, userContent := query }
            if env.completionOk then
              { response :=
                  { status := 200, headers := corsStreamingHeaders,
                    body := .stream env.completionBody },
                calls := { moderation := true, embedding := true, rpc := true, completion := true },
                completionRequest := some completionReq }
            else
              { response := genericErrorResponse,
                calls := { moderation := true, embedding := true, rpc := true, completion := true },
                completionRequest := some completionReq }

/-- A benign environment for concrete evaluations: moderation clean,
embedding OK, no store error, no sections, completion OK. -/
def envBase : Env :=
  { moderation := { flagged := false, categories := [] },
    embeddingStatus := 200,
    embeddingRaw := "",
    matchError := none,
    pageSections := [],
    tok := fun _ => 0,
    completionOk := true,
    completionBody := "stream-bytes" }

/-- A request environment whose moderation verdict is flagged, for
concrete evaluations. -/
def envFlagged : Env :=
  { envBase with moderation := { flagged := true, categories := [("violence", true)] } }

/-- Trimming the empty string gives the empty string. -/
theorem strTrim_empty : strTrim "" = "" := rfl

/-- The head of `replaceNl l` is the head of `l` with the newline
substitution applied. -/
theorem replaceNl_head (l : List Char) :
    (replaceNl l).head? = l.head?.map fun c => if c = '\n' then ' ' else c := by
  cases l <;> simp [replaceNl]

/-- Replacing newlines commutes with list reversal. -/
theorem replaceNl_reverse (l : List Char) :
    (replaceNl l).reverse = replaceNl l.reverse := by
  simp [replaceNl]

/-- Replacing newlines twice is the same as replacing them once. -/
theorem replaceNl_idem (l : List Char) : replaceNl (replaceNl l) = replaceNl l := by
  induction l with
  | nil => rfl
  | cons a l ih =>
    by_cases h : a = '\n' <;> simp_all [replaceNl]

/-- The head of `l.dropWhile p`, when it exists, fails `p`. -/
theorem head_dropWhile_false (p : Char → Bool) :
    ∀ (l : List Char) (c : Char), (l.dropWhile p).head? = some c → p c = false := by
  intro l
  induction l with
  | nil => intro c h; simp [List.dropWhile] at h
  | cons a t ih =>
    intro c h
    rw [List.dropWhile_cons] at h
    split at h
    · exact ih c h
    · next hpa =>
      simp only [List.head?_cons, Option.some.injEq] at h
      subst h
      simpa using hpa

/-- Every list is the dropped-while part preceded by some residue. -/
theorem dropWhile_decomp (p : Char → Bool) :
    ∀ l : List Char, ∃ t, l = t ++ l.dropWhile p := by
  intro l
  induction l with
  | nil => exact ⟨[], rfl⟩
  | cons a t ih =>
    by_cases h : p a = true
    · obtain ⟨u, hu⟩ := ih
      refine ⟨a :: u, ?_⟩
      rw [List.dropWhile_cons, if_pos h, List.cons_append]
      exact congrArg (a :: ·) hu
    · exact ⟨[], by rw [List.dropWhile_cons, if_neg h]; rfl⟩

/-- A list whose head fails `p` is unchanged by `dropWhile p`. -/
theorem dropWhile_eq_self_of_head (p : Char → Bool) (l : List Char)
    (h : ∀ c, l.head? = some c → p c = false) : l.dropWhile p = l := by
  cases l with
  | nil => rfl
  | cons a t =>
    rw [List.dropWhile_cons, if_neg (by simp [h a rfl])]

/-- The first character of a trimmed list is not whitespace. -/
theorem trimList_head_not_ws (l : List Char) (c : Char)
    (h : (trimList l).head? = some c) : c.isWhitespace = false := by
  rw [trimList] at h
  obtain ⟨t, ht⟩ :=
    dropWhile_decomp Char.isWhitespace (l.dropWhile Char.isWhitespace).reverse
  have hl1 : (l.dropWhile Char.isWhitespace).head? = some c := by
    have : l.dropWhile Char.isWhitespace =
        ((l.dropWhile Char.isWhitespace).reverse.dropWhile Char.isWhitespace).reverse
          ++ t.reverse := by
      calc l.dropWhile Char.isWhitespace
          = (l.dropWhile Char.isWhitespace).reverse.reverse := (List.reverse_reverse _).symm
        _ = (t ++ (l.dropWhile Char.isWhitespace).reverse.dropWhile Char.isWhitespace).reverse := by
            rw [← ht]
        _ = _ := by rw [List.reverse_append]
    rw [this, List.head?_append, h]
    rfl
  exact head_dropWhile_false Char.isWhitespace l c hl1

/-- The last character of a trimmed list is not whitespace. -/
theorem trimList_last_not_ws (l : List Char) (c : Char)
    (h : (trimList l).reverse.head? = some c) : c.isWhitespace = false := by
  rw [trimList, List.reverse_reverse] at h
  exact head_dropWhile_false Char.isWhitespace _ c h

/-- A list with no whitespace at either end is unchanged by trimming. -/
theorem trimList_eq_self (l : List Char)
    (h1 : ∀ c, l.head? = some c → c.isWhitespace = false)
    (h2 : ∀ c, l.reverse.head? = some c → c.isWhitespace = false) :
    trimList l = l := by
  rw [trimList, dropWhile_eq_self_of_head Char.isWhitespace l h1,
    dropWhile_eq_self_of_head Char.isWhitespace l.reverse h2, List.reverse_reverse]

/-- C8: the query normalization (trim, then replace every newline with a
space) is idempotent: normalizing a second time changes nothing. -/
theorem sanitize_idempotent (s : String) : sanitize (sanitize s) = sanitize s := by
  show (⟨replaceNl (trimList (replaceNl (trimList s.data)))⟩ : String) =
    ⟨replaceNl (trimList s.data)⟩
  have htrim : trimList (replaceNl (trimList s.data)) = replaceNl (trimList s.data) := by
    apply trimList_eq_self
    · intro c h
      rw [replaceNl_head] at h
      cases hm : (trimList s.data).head? with
      | none => rw [hm] at h; simp at h
      | some c0 =>
        rw [hm] at h
        simp only [Option.map_some'] at h
        have hc0 : c0.isWhitespace = false := trimList_head_not_ws s.data c0 hm
        have hne : c0 ≠ '\n' := by
          intro e; rw [e] at hc0; simp [Char.isWhitespace] at hc0
        rw [if_neg hne] at h
        rw [← Option.some.inj h]
        exact hc0
    · intro c h
      rw [replaceNl_reverse, replaceNl_head] at h
      cases hm : (trimList s.data).reverse.head? with
      | none => rw [hm] at h; simp at h
      | some c0 =>
        rw [hm] at h
        simp only [Option.map_some'] at h
        have hc0 : c0.isWhitespace = false := trimList_last_not_ws s.data c0 hm
        have hne : c0 ≠ '\n' := by
          intro e; rw [e] at hc0; simp [Char.isWhitespace] at hc0
        rw [if_neg hne] at h
        rw [← Option.some.inj h]
        exact hc0
  rw [htrim, replaceNl_idem]

/-- C3 counterexample: the OPTIONS branch returns the body `"ok"`
(`new Response("ok", ...)`), which is not the empty body the claim
requires. -/
theorem options_body_not_empty :
    (handle envBase { method := "OPTIONS", queryParam := none }).response.body =
      ResponseBody.text "ok" ∧
    ResponseBody.text "ok" ≠ ResponseBody.text "" :=
  ⟨rfl, by decide⟩

/-- C3 (amended): every OPTIONS request gets an immediate response with
status 200, body `"ok"`, the CORS headers, and no external call. -/
theorem options_branch_response (env : Env) (req : HttpRequest)
    (h : req.method = "OPTIONS") :
    handle env req =
      { response := { status := 200, headers := corsHeaders, body := .text "ok" },
        calls := noCalls, completionRequest := none } := by
  simp [handle, h]

/-- Witness for C3's theorem at a concrete OPTIONS request. -/
theorem options_branch_response_witness :
    handle envBase { method := "OPTIONS", queryParam := none } =
      { response := { status := 200, headers := corsHeaders, body := .text "ok" },
        calls := noCalls, completionRequest := none } :=
  options_branch_response envBase { method := "OPTIONS", queryParam := none } rfl

/-- C4: a flagged moderation verdict stops the pipeline with HTTP 400,
a JSON body whose data carries `flagged = true` and the moderation
result's categories, and no embedding, retrieval or completion call. -/
theorem moderation_flagged_response (env : Env) (req : HttpRequest) (q : String)
    (hm : req.method ≠ "OPTIONS") (hq : req.queryParam = some q) (hne : q ≠ "")
    (hf : env.moderation.flagged = true) :
    handle env req =
      { response := userErrorResponse "Flagged content"
          (some { flagged := true, categories := env.moderation.categories }),
        calls := { moderation := true, embedding := false, rpc := false, completion := false },
        completionRequest := none } := by
  simp [handle, hm, hq, hne, hf, noCalls]

/-- Witness for C4's theorem at a concrete flagged request. -/
theorem moderation_flagged_response_witness :
    handle envFlagged { method := "GET", queryParam := some "hi" } =
      { response := userErrorResponse "Flagged content"
          (some { flagged := true, categories := [("violence", true)] }),
        calls := { moderation := true, embedding := false, rpc := false, completion := false },
        completionRequest := none } :=
  moderation_flagged_response envFlagged { method := "GET", queryParam := some "hi" }
    "hi" (by decide) rfl (by decide) rfl

/-- C5: a non-OPTIONS request without a `query` parameter gets HTTP 400
with error `"Missing query in request data"` and no external call. -/
theorem missing_query_response (env : Env) (req : HttpRequest)
    (hm : req.method ≠ "OPTIONS") (hq : req.queryParam = none) :
    handle env req =
      { response := userErrorResponse "Missing query in request data" none,
        calls := noCalls, completionRequest := none } := by
  simp [handle, hm, hq]

/-- Witness for C5's theorem at a concrete request without a query. -/
theorem missing_query_response_witness :
    handle envBase { method := "GET", queryParam := none } =
      { response := userErrorResponse "Missing query in request data" none,
        calls := noCalls, completionRequest := none } :=
  missing_query_response envBase { method := "GET", queryParam := none }
    (by decide) rfl

/-- C6: a non-200 embedding-service status always yields HTTP 500 with
the fixed generic JSON body, whatever raw response the provider
returned; retrieval and completion are never reached. -/
theorem embedding_failure_response (env : Env) (req : HttpRequest) (q : String)
    (hm : req.method ≠ "OPTIONS") (hq : req.queryParam = some q) (hne : q ≠ "")
    (hf : env.moderation.flagged = false) (hs : env.embeddingStatus ≠ 200) :
    handle env req =
      { response := genericErrorResponse,
        calls := { moderation := true, embedding := true, rpc := false, completion := false },
        completionRequest := none } := by
  simp [handle, hm, hq, hne, hf, hs, noCalls]

/-- Witness for C6's theorem: embedding status 503 with a raw provider
error body that never reaches the caller. -/
theorem embedding_failure_response_witness :
    handle { envBase with embeddingStatus := 503, embeddingRaw := "upstream overloaded" }
      { method := "GET", queryParam := some "hi" } =
      { response := genericErrorResponse,
        calls := { moderation := true, embedding := true, rpc := false, completion := false },
        completionRequest := none } :=
  embedding_failure_response
    { envBase with embeddingStatus := 503, embeddingRaw := "upstream overloaded" }
    { method := "GET", queryParam := some "hi" } "hi" (by decide) rfl (by decide) rfl
    (by decide)

/-- C7: every response the handler can produce carries the CORS header
`Access-Control-Allow-Origin: *`, on the success, 400, 500 and OPTIONS
variants alike. -/
theorem cors_header_always_present (env : Env) (req : HttpRequest) :
    ("Access-Control-Allow-Origin", "*") ∈ (handle env req).response.headers := by
  unfold handle
  repeat' split
  all_goals
    simp [corsHeaders, corsStreamingHeaders, userErrorResponse, genericErrorResponse]

/-- C9: a present-but-empty `query` parameter behaves exactly like an
absent one, because `if (!query)` tests JavaScript falsiness: same 400
response with `"Missing query in request data"` and no external call. -/
theorem empty_query_like_absent (env : Env) (method : String)
    (hm : method ≠ "OPTIONS") :
    handle env { method := method, queryParam := some "" } =
      handle env { method := method, queryParam := none } ∧
    handle env { method := method, queryParam := some "" } =
      { response := userErrorResponse "Missing query in request data" none,
        calls := noCalls, completionRequest := none } := by
  constructor <;> simp [handle, hm]

/-- Witness for C9's theorem at a concrete `?query=` request. -/
theorem empty_query_like_absent_witness :
    handle envBase { method := "GET", queryParam := some "" } =
      handle envBase { method := "GET", queryParam := none } ∧
    handle envBase { method := "GET", queryParam := some "" } =
      { response := userErrorResponse "Missing query in request data" none,
        calls := noCalls, completionRequest := none } :=
  empty_query_like_absent envBase "GET" (by decide)

/-- C10: a section whose `content` field is missing or null is handled
without failure: the loop treats it as the empty string (same step as a
section with content `""`), it contributes zero tokens when the
tokenizer gives the empty string zero tokens, and when the cap has not
been reached only the bare separator is appended; when the cap has been
reached the loop breaks with the context unchanged. -/
theorem null_content_section_step (tok : String → Nat) (tc : Nat) (ctx : String)
    (s : PageSection) (rest : List PageSection)
    (hc : s.content = none) (h0 : tok "" = 0) :
    assembleContextAux tok tc ctx (s :: rest) =
      assembleContextAux tok tc ctx ({ content := some "" } :: rest) ∧
    (tc < 1500 →
      assembleContextAux tok tc ctx (s :: rest) =
        assembleContextAux tok tc (ctx ++ "\n---\n") rest) ∧
    (1500 ≤ tc → assembleContextAux tok tc ctx (s :: rest) = (tc, ctx)) := by
  refine ⟨?_, ?_, ?_⟩
  · simp [assembleContextAux, sectionTokens, sectionContent, sectionText, hc]
  · intro h
    rw [assembleContextAux]
    simp only [sectionTokens, sectionContent, hc, Option.getD_none, h0, Nat.add_zero,
      sectionText, strTrim_empty, String.empty_append]
    rw [if_neg (by omega)]
  · intro h
    rw [assembleContextAux]
    simp only [sectionTokens, sectionContent, hc, Option.getD_none, h0, Nat.add_zero]
    rw [if_pos h]

/-- Witness for C10's theorem at a concrete null-content section. -/
theorem null_content_section_step_witness :
    assembleContextAux (fun _ => 0) 0 "" [{ content := none }] =
      assembleContextAux (fun _ => 0) 0 "\n---\n" [] :=
  (null_content_section_step (fun _ => 0) 0 "" { content := none } [] rfl rfl).2.1
    (by decide)

/-- The wrapped query is a contiguous substring of the constructed
prompt, between the fixed question header and the output-format
instruction. -/
theorem wrapQuoted_in_buildPrompt (ctx q : String) :
    (wrapQuoted q).data <:+: (buildPrompt ctx q).data := by
  refine ⟨(promptInstruction ++ "\n\nContext sections:\n" ++ ctx ++ "\n\nQuestion: ").data,
    "\n\nAnswer as markdown (including related code snippets if available):".data, ?_⟩
  simp [buildPrompt, String.data_append, List.append_assoc]

/-- C2 (amended): whenever the pipeline reaches the answer-generation
stage, the system message is the prompt built from the assembled context
and the sanitized query, it contains the sanitized (trimmed,
newline-replaced) query wrapped in the triple-quote delimiters, and the
original un-normalized query is sent as the user message instead. -/
theorem completion_prompt_content (env : Env) (req : HttpRequest) (q : String)
    (cr : CompletionRequest) (hq : req.queryParam = some q)
    (hcr : (handle env req).completionRequest = some cr) :
    cr.systemContent =
      buildPrompt (assembleContext env.tok env.pageSections) (sanitize q) ∧
    (wrapQuoted (sanitize q)).data <:+: cr.systemContent.data ∧
    cr.userContent = q := by
  unfold handle at hcr
  rw [hq] at hcr
  repeat' split at hcr
  all_goals simp_all
  all_goals rw [← hcr]
  all_goals exact ⟨rfl, wrapQuoted_in_buildPrompt _ _, rfl⟩

set_option maxRecDepth 10000 in
/-- Witness for C2's theorem at a concrete benign request. -/
theorem completion_prompt_content_witness :
    ({ systemContent := buildPrompt "" (sanitize "hi"), userContent := "hi" }
        : CompletionRequest).systemContent =
      buildPrompt (assembleContext envBase.tok envBase.pageSections) (sanitize "hi") ∧
    (wrapQuoted (sanitize "hi")).data <:+:
      ({ systemContent := buildPrompt "" (sanitize "hi"), userContent := "hi" }
        : CompletionRequest).systemContent.data ∧
    ({ systemContent := buildPrompt "" (sanitize "hi"), userContent := "hi" }
        : CompletionRequest).userContent = "hi" :=
  completion_prompt_content envBase { method := "GET", queryParam := some "hi" }
    "hi" _ rfl rfl

set_option maxRecDepth 10000 in
/-- C2 counterexample: for the query `"a\nb"` the pipeline reaches the
answer-generation stage, but the system prompt contains the sanitized
query `"a b"`, not the original query wrapped in delimiters. -/
theorem original_query_not_in_prompt :
    (handle envBase { method := "GET", queryParam := some "a\nb" }).completionRequest =
      some { systemContent := buildPrompt "" "a b", userContent := "a\nb" } ∧
    ¬ ((wrapQuoted "a\nb").data <:+: (buildPrompt "" "a b").data) := by
  refine ⟨rfl, ?_⟩
  decide

/-- Folding string concatenation from any seed splits off the seed. -/
theorem foldl_append_seed (l : List String) :
    ∀ a : String, l.foldl (· ++ ·) a = a ++ l.foldl (· ++ ·) "" := by
  induction l with
  | nil => intro a; simp [String.append_empty]
  | cons s l ih =>
    intro a
    simp only [List.foldl_cons]
    rw [ih (a ++ s), ih ("" ++ s), String.empty_append, String.append_assoc]

/-- Joining a list of strings peels off its head. -/
theorem join_cons (s : String) (l : List String) :
    String.join (s :: l) = s ++ String.join l := by
  show List.foldl (· ++ ·) ("" ++ s) l = s ++ String.join l
  rw [String.empty_append]
  exact foldl_append_seed l s

/-- Joining no strings gives the empty string. -/
theorem join_nil : String.join [] = "" := rfl

/-- The loop's accumulated context is the incoming context followed by
the texts of the first `keepCount` sections. -/
theorem assembleContextAux_join (tok : String → Nat) :
    ∀ (l : List PageSection) (acc : Nat) (ctx : String),
      (assembleContextAux tok acc ctx l).2 =
        ctx ++ String.join ((l.take (keepCount tok acc l)).map sectionText) := by
  intro l
  induction l with
  | nil =>
    intro acc ctx
    simp [assembleContextAux, keepCount, String.append_empty, join_nil]
  | cons s rest ih =>
    intro acc ctx
    simp only [assembleContextAux, keepCount]
    by_cases h : acc + sectionTokens tok s < 1500
    · rw [if_neg (by omega), if_pos h, List.take_succ_cons, List.map_cons, join_cons,
        ih, String.append_assoc]
    · rw [if_pos (by omega), if_neg h]
      simp [String.append_empty, join_nil]

/-- The kept-section count never exceeds the number of sections. -/
theorem keepCount_le_length (tok : String → Nat) :
    ∀ (l : List PageSection) (acc : Nat), keepCount tok acc l ≤ l.length := by
  intro l
  induction l with
  | nil => intro acc; simp [keepCount]
  | cons s rest ih =>
    intro acc
    rw [keepCount]
    split
    · simpa using ih _
    · simp

/-- The kept count marks the largest prefix whose cumulative token count,
on top of the accumulator, stays under 1500: a prefix length `k` keeps
the total under the cap exactly when `k` is at most `keepCount`. -/
theorem keepCount_largest (tok : String → Nat) :
    ∀ (l : List PageSection) (acc : Nat), acc < 1500 →
      ∀ k, k ≤ l.length →
        (acc + ((l.take k).map (sectionTokens tok)).sum < 1500 ↔
          k ≤ keepCount tok acc l) := by
  intro l
  induction l with
  | nil =>
    intro acc hacc k hk
    have hk0 : k = 0 := by simpa using hk
    subst hk0
    simp [keepCount, hacc]
  | cons s rest ih =>
    intro acc hacc k hk
    cases k with
    | zero => simp [hacc]
    | succ j =>
      rw [keepCount]
      simp only [List.take_succ_cons, List.map_cons, List.sum_cons]
      by_cases h : acc + sectionTokens tok s < 1500
      · rw [if_pos h]
        have hrec := ih (acc + sectionTokens tok s) h j (by simpa using hk)
        omega
      · rw [if_neg h]
        omega

/-- C1: the assembled context is the concatenation, in order, of the
longest prefix of retrieved sections whose cumulative token count stays
strictly under 1500, each section's content trimmed and suffixed with
the separator; the first section whose inclusion reaches the cap is
excluded entirely, and when the very first section alone reaches the
cap the context is the empty string (no error). -/
theorem context_assembly_spec (tok : String → Nat) (sections : List PageSection) :
    assembleContext tok sections =
      String.join ((sections.take (keepCount tok 0 sections)).map sectionText) ∧
    keepCount tok 0 sections ≤ sections.length ∧
    (∀ k, k ≤ sections.length →
      (((sections.take k).map (sectionTokens tok)).sum < 1500 ↔
        k ≤ keepCount tok 0 sections)) ∧
    (∀ s rest, sections = s :: rest → 1500 ≤ sectionTokens tok s →
      assembleContext tok sections = "") := by
  refine ⟨?_, keepCount_le_length tok sections 0, ?_, ?_⟩
  · rw [assembleContext, assembleContextAux_join, String.empty_append]
  · intro k hk
    have := keepCount_largest tok sections 0 (by omega) k hk
    omega
  · intro s rest hsec hge
    subst hsec
    rw [assembleContext]
    simp only [assembleContextAux]
    rw [if_pos (by omega)]

/-- Witness for C1's theorem: with a tokenizer that prices every
section at 1500 tokens, the first section alone reaches the cap and the
context is empty. -/
theorem context_assembly_spec_witness :
    assembleContext (fun _ => 1500) [{ content := some "abc" }] = "" :=
  (context_assembly_spec (fun _ => 1500) [{ content := some "abc" }]).2.2.2
    { content := some "abc" } [] rfl (Nat.le.refl)

end VectorSearch
